import Mathlib

/-!
Shallow embedding of the group-schedule fan-out / propagation / cancellation
engine of the 1-reach-v2 backend (src/backend/app/views.py, serializers.py,
models.py, utils/sms.py), together with theorems settling the frozen claims.

Conventions of the embedding:
* database tables are Lean lists of records; primary keys are `Nat`;
* timestamps are `Nat` (only ordering and equality matter to the claims);
* the tenant (Organisation) is identified by a `Nat`;
* Django `null` columns are `Option`;
* each HTTP handler `f` is a function `DB → args → DB × Except ApiError resp`:
  the first component is the post-state of the store (error paths in the
  source raise before any write, and every write block is wrapped in
  `transaction.atomic`, so an error response leaves the store unchanged);
* `transaction.atomic` over inserts is modelled by committing the whole list
  of new rows or none of it (see `GroupScheduleViewSet.createWithInsertFailure`).
-/

/-- `ScheduleStatus` choices (models.py). -/
inductive ScheduleStatus
  | pending
  | processing
  | sent
  | failed
  | cancelled
deriving DecidableEq, Repr

/-- `MessageFormat` choices (models.py). -/
inductive MessageFormat
  | sms
  | mms
deriving DecidableEq, Repr

/-- `Contact` row, restricted to the fields the engine reads
(models.py `Contact`: phone, is_active, opt_out, organisation). -/
structure Contact where
  id : Nat
  organisation : Nat
  phone : String
  is_active : Bool
  opt_out : Bool
deriving DecidableEq, Repr

/-- `ContactGroup` row. -/
structure ContactGroup where
  id : Nat
  organisation : Nat
  name : String
deriving DecidableEq, Repr

/-- `ContactGroupMember` row: membership of a contact in a group. -/
structure ContactGroupMember where
  group : Nat
  contact : Nat
deriving DecidableEq, Repr

/-- `Template` row, restricted to the fields the engine reads. -/
structure Template where
  id : Nat
  organisation : Nat
  text : String
deriving DecidableEq, Repr

/-- `Schedule` row (models.py `Schedule`): the send unit.  Foreign keys are
stored as ids; audit actor references (`created_by` / `updated_by`) are user
ids. -/
structure Schedule where
  id : Nat
  organisation : Nat
  name : Option String := none
  template : Option Nat := none
  text : Option String := none
  message_parts : Nat := 1
  contact : Option Nat := none
  phone : Option String := none
  group : Option Nat := none
  parent : Option Nat := none
  scheduled_time : Nat
  sent_time : Option Nat := none
  status : ScheduleStatus := .pending
  error : Option String := none
  format : Option MessageFormat := none
  media_url : Option String := none
  subject : Option String := none
  created_by : Nat
  updated_by : Nat
deriving DecidableEq, Repr

/-- The persistent store: every table the engine touches, plus the next
fresh primary key for `schedules` (auto-increment). -/
structure DB where
  schedules : List Schedule
  contacts : List Contact
  groups : List ContactGroup
  groupMembers : List ContactGroupMember
  templates : List Template
  nextId : Nat
deriving DecidableEq, Repr

/-- Error taxonomy of the handlers: 404 responses / `NotFound`,
400 responses / `ValidationError`, missing organisation on the request. -/
inductive ApiError
  | notFound (detail : String)
  | validation (detail : String)
  | orgRequired
deriving DecidableEq, Repr

/-- Equality of `Except` values is decidable componentwise (used to check
concrete handler responses by `decide`). -/
instance {e a : Type} [DecidableEq e] [DecidableEq a] : DecidableEq (Except e a)
  | .error x, .error y =>
    if h : x = y then .isTrue (by rw [h])
    else .isFalse (fun hc => h (Except.error.inj hc))
  | .error _, .ok _ => .isFalse (fun hc => Except.noConfusion hc)
  | .ok _, .error _ => .isFalse (fun hc => Except.noConfusion hc)
  | .ok x, .ok y =>
    if h : x = y then .isTrue (by rw [h])
    else .isFalse (fun hc => h (Except.ok.inj hc))

/-- `contact.contactgroupmember__group = group` join condition. -/
def memberOfGroup (db : DB) (gid cid : Nat) : Bool :=
  db.groupMembers.any fun m => m.group == gid && m.contact == cid

/-- Recipient resolution of `GroupScheduleViewSet.create` (views.py):
`Contact.objects.filter(contactgroupmember__group=group, opt_out=False)` —
opt-out only, no `is_active` restriction. -/
def eligibleForCreate (db : DB) (gid : Nat) : List Contact :=
  db.contacts.filter fun c => memberOfGroup db gid c.id && !c.opt_out

/-- Recipient resolution of `SMSViewSet.send_to_group` (views.py):
`Contact.objects.filter(contactgroupmember__group=group, is_active=True,
opt_out=False)`. -/
def eligibleForSend (db : DB) (gid : Nat) : List Contact :=
  db.contacts.filter fun c => memberOfGroup db gid c.id && c.is_active && !c.opt_out

/-- `ContactGroup.objects.filter(id=group_id, organisation=org).first()`. -/
def findGroup (db : DB) (org gid : Nat) : Option ContactGroup :=
  db.groups.find? fun g => g.id == gid && g.organisation == org

/-- `Template.objects.filter(id=template_id, organisation=org).first()`. -/
def findTemplate (db : DB) (org tid : Nat) : Option Template :=
  db.templates.find? fun t => t.id == tid && t.organisation == org

/-- Python `str.strip()`: leading and trailing whitespace removed
(implemented over the character list so that it reduces in the kernel). -/
def pyStrip (s : String) : String :=
  ⟨((s.data.dropWhile Char.isWhitespace).reverse.dropWhile Char.isWhitespace).reverse⟩

/-- Python slicing `s[:n]` (kernel-reducible `String.take`). -/
def pyTake (s : String) (n : Nat) : String :=
  ⟨s.data.take n⟩

/-! ### Fan-out creation (`GroupScheduleViewSet.create`) -/

/-- Request body of `POST /api/group-schedules/`
(`GroupScheduleCreateSerializer`): `template_id` and `text` are optional. -/
structure CreateData where
  name : String
  template_id : Option Nat := none
  text : Option String := none
  group_id : Nat
  scheduled_time : Nat
deriving DecidableEq, Repr

/-- Field and object validation of `GroupScheduleCreateSerializer`:
declared field constraints (max lengths, `min_value=1`), strictly-future
`scheduled_time`, and "either template_id or non-blank text". -/
def validCreateData (data : CreateData) (now : Nat) : Bool :=
  data.name.length ≤ 100
    && (match data.template_id with | some tid => tid ≥ 1 | none => true)
    && (match data.text with | some t => t.length ≤ 306 | none => true)
    && data.group_id ≥ 1
    && now < data.scheduled_time
    && (data.template_id.isSome
        || (match data.text with | some t => !(pyStrip t == "") | none => false))

/-- Template / inline-text resolution of `GroupScheduleViewSet.create`:
`template, text = None, data.get('text', '')`; a given `template_id` is
looked up under the tenant (404 when absent) and supplies the text;
otherwise non-empty inline text is stripped. -/
def resolveContentCreate (db : DB) (org : Nat) (data : CreateData) :
    Except ApiError (Option Nat × String) :=
  let text0 := data.text.getD ""
  match data.template_id with
  | some tid =>
    match findTemplate db org tid with
    | none => .error (.notFound "Template not found.")
    | some tpl => .ok (some tpl.id, tpl.text)
  | none =>
    if text0 == "" then .ok (none, text0) else .ok (none, pyStrip text0)

/-- One child row of the fan-out (`Schedule(...)` inside `bulk_create`),
for the member at offset `i` after the parent row. -/
def mkFanoutChild (org : Nat) (template : Option Nat) (text : String)
    (gid pid sched actor baseId i : Nat) (m : Contact) : Schedule :=
  { id := baseId + i
    organisation := org
    template := template
    text := some text
    contact := some m.id
    phone := some m.phone
    group := some gid
    parent := some pid
    scheduled_time := sched
    created_by := actor
    updated_by := actor }

/-- The `bulk_create` list: one child per resolved member, in order. -/
def mkFanoutChildren (org : Nat) (template : Option Nat) (text : String)
    (gid pid sched actor baseId : Nat) : List Contact → Nat → List Schedule
  | [], _ => []
  | m :: ms, i =>
    mkFanoutChild org template text gid pid sched actor baseId i m
      :: mkFanoutChildren org template text gid pid sched actor baseId ms (i + 1)

namespace GroupScheduleViewSet

/-- `GroupScheduleViewSet.create` (views.py): validates the body, resolves
group, template/text and the opt-out-filtered member set, then atomically
creates the parent row and one child row per member.  Returns the post-state
of the store and the response (parent with its children, or the error). -/
def create (db : DB) (org? : Option Nat) (data : CreateData)
    (actor now : Nat) : DB × Except ApiError (Schedule × List Schedule) :=
  if !validCreateData data now then (db, .error (.validation "Invalid input."))
  else
    match org? with
    | none => (db, .error .orgRequired)
    | some org =>
      match findGroup db org data.group_id with
      | none => (db, .error (.notFound "Group not found."))
      | some group =>
        match resolveContentCreate db org data with
        | .error e => (db, .error e)
        | .ok (template, text) =>
          let members := eligibleForCreate db group.id
          if members.isEmpty then
            (db, .error (.validation "Group has no members."))
          else
            let parent : Schedule :=
              { id := db.nextId
                organisation := org
                name := some data.name
                template := template
                text := some text
                group := some group.id
                scheduled_time := data.scheduled_time
                created_by := actor
                updated_by := actor }
            let children := mkFanoutChildren org template text group.id
              parent.id data.scheduled_time actor (db.nextId + 1) members 0
            ({ db with
                schedules := db.schedules ++ parent :: children
                nextId := db.nextId + 1 + children.length },
             .ok (parent, children))

/-- `GroupScheduleViewSet.create` with a fallible child insertion, making the
`transaction.atomic` block explicit: the parent insert and the children
`bulk_create` happen in one transaction, so if any child insert fails
(`insertOk` is false on it) the whole block rolls back and the store is
unchanged. -/
def createWithInsertFailure (db : DB) (org? : Option Nat) (data : CreateData)
    (actor now : Nat) (insertOk : Schedule → Bool) :
    DB × Except ApiError (Schedule × List Schedule) :=
  if !validCreateData data now then (db, .error (.validation "Invalid input."))
  else
    match org? with
    | none => (db, .error .orgRequired)
    | some org =>
      match findGroup db org data.group_id with
      | none => (db, .error (.notFound "Group not found."))
      | some group =>
        match resolveContentCreate db org data with
        | .error e => (db, .error e)
        | .ok (template, text) =>
          let members := eligibleForCreate db group.id
          if members.isEmpty then
            (db, .error (.validation "Group has no members."))
          else
            let parent : Schedule :=
              { id := db.nextId
                organisation := org
                name := some data.name
                template := template
                text := some text
                group := some group.id
                scheduled_time := data.scheduled_time
                created_by := actor
                updated_by := actor }
            let children := mkFanoutChildren org template text group.id
              parent.id data.scheduled_time actor (db.nextId + 1) members 0
            if children.all insertOk then
              ({ db with
                  schedules := db.schedules ++ parent :: children
                  nextId := db.nextId + 1 + children.length },
               .ok (parent, children))
            else
              (db, .error (.validation "Transaction aborted."))

end GroupScheduleViewSet

/-! ### Propagation update and cancellation (`GroupScheduleViewSet`) -/

/-- Request body of `PUT/PATCH /api/group-schedules/{id}/`
(`GroupScheduleUpdateSerializer`).  Every field is optional; `template_id`
and `text` also accept an explicit null (hence the nested `Option`); the
serializer also declares — and accepts — a `status` choice field. -/
structure UpdatePatch where
  name : Option String := none
  template_id : Option (Option Nat) := none
  text : Option (Option String) := none
  scheduled_time : Option Nat := none
  status : Option ScheduleStatus := none
deriving DecidableEq, Repr

/-- Field validation of `GroupScheduleUpdateSerializer`: max lengths,
`min_value=1` on a non-null `template_id`, strictly-future
`scheduled_time` when given, and `status` drawn from the choices (the
`ScheduleStatus` type already enforces that). -/
def validUpdatePatch (patch : UpdatePatch) (now : Nat) : Bool :=
  (match patch.name with | some n => n.length ≤ 100 | none => true)
    && (match patch.template_id with
        | some (some tid) => tid ≥ 1
        | _ => true)
    && (match patch.text with
        | some (some t) => t.length ≤ 306
        | _ => true)
    && (match patch.scheduled_time with | some t => now < t | none => true)

/-- The `update_fields` dict built by `GroupScheduleViewSet.update`: which
columns the view is about to write, and their new values.  `updated_by`
is always present. -/
structure UpdateFields where
  updated_by : Nat
  name : Option String := none
  scheduled_time : Option Nat := none
  text : Option (Option String) := none
  template : Option (Option Nat) := none
deriving DecidableEq, Repr

/-- Builds `update_fields` exactly as the view does: name, scheduled_time
and text are copied from the patch when present; a present `template_id`
then either resolves the template under the tenant (404 when absent) and
overwrites both `template` and `text`, or — when explicitly null — clears
`template` only. -/
def buildUpdateFields (db : DB) (org : Nat) (patch : UpdatePatch)
    (actor : Nat) : Except ApiError UpdateFields :=
  let uf : UpdateFields :=
    { updated_by := actor
      name := patch.name
      scheduled_time := patch.scheduled_time
      text := patch.text }
  match patch.template_id with
  | none => .ok uf
  | some none => .ok { uf with template := some none }
  | some (some tid) =>
    match findTemplate db org tid with
    | none => .error (.notFound "Template not found.")
    | some tpl => .ok { uf with template := some (some tpl.id), text := some (some tpl.text) }

/-- Writing `update_fields` onto a row (`setattr` + `save`, or the children
`.update(**child_fields)`): only the present fields change. -/
def applyFields (s : Schedule) (uf : UpdateFields) : Schedule :=
  { s with
    updated_by := uf.updated_by
    name := match uf.name with | some n => some n | none => s.name
    scheduled_time := match uf.scheduled_time with | some t => t | none => s.scheduled_time
    text := match uf.text with | some t => t | none => s.text
    template := match uf.template with | some t => t | none => s.template }

/-- `child_fields`: the subset of `update_fields` shared with children —
`text`, `template`, `scheduled_time`, `updated_by`; never `name`. -/
def childFields (uf : UpdateFields) : UpdateFields :=
  { uf with name := none }

namespace GroupScheduleViewSet

/-- `GroupScheduleViewSet.get_queryset`: parent-level group schedules of the
organisation — `parent` null, `group` non-null — excluding cancelled ones. -/
def getQueryset (db : DB) (org : Nat) : List Schedule :=
  db.schedules.filter fun s =>
    s.organisation == org && s.parent.isNone && !s.group.isNone
      && !(s.status == ScheduleStatus.cancelled)

/-- `self.get_queryset().filter(pk=pk).first()`. -/
def resolveParent (db : DB) (org pk : Nat) : Option Schedule :=
  (getQueryset db org).find? fun s => s.id == pk

/-- `GroupScheduleViewSet.update` (views.py): resolves the parent under the
tenant queryset (404 otherwise), rejects non-pending parents with a 400,
validates the patch, builds `update_fields`, then atomically writes them to
the parent and the shared subset (`childFields`) to the children currently
`pending`. -/
def update (db : DB) (org? : Option Nat) (pk : Nat) (patch : UpdatePatch)
    (actor now : Nat) : DB × Except ApiError Schedule :=
  match org?, resolveParent db (org?.getD 0) pk with
  | none, _ => (db, .error .orgRequired)
  | some _, none => (db, .error (.notFound "Not found."))
  | some org, some parent =>
    if !(parent.status == ScheduleStatus.pending) then
      (db, .error (.validation "Only pending group schedules can be updated."))
    else if !validUpdatePatch patch now then
      (db, .error (.validation "Invalid input."))
    else
      match buildUpdateFields db org patch actor with
      | .error e => (db, .error e)
      | .ok uf =>
        let newParent := applyFields parent uf
        let cf := childFields uf
        let newSchedules := db.schedules.map fun s =>
          if s.id == parent.id then applyFields s uf
          else if s.parent == some parent.id && s.status == ScheduleStatus.pending then
            applyFields s cf
          else s
        ({ db with schedules := newSchedules }, .ok newParent)

/-- `GroupScheduleViewSet.cancel` (views.py): resolves the parent under the
tenant queryset (404 otherwise), rejects non-pending parents with a 400,
then atomically sets every `pending` child and the parent itself to
`cancelled`, recording the actor. -/
def cancel (db : DB) (org? : Option Nat) (pk actor : Nat) :
    DB × Except ApiError Unit :=
  match org?, resolveParent db (org?.getD 0) pk with
  | none, _ => (db, .error .orgRequired)
  | some _, none => (db, .error (.notFound "Not found."))
  | some _, some parent =>
    if !(parent.status == ScheduleStatus.pending) then
      (db, .error (.validation "Only pending group schedules can be cancelled."))
    else
      let newSchedules := db.schedules.map fun s =>
        if s.parent == some parent.id && s.status == ScheduleStatus.pending then
          { s with status := ScheduleStatus.cancelled, updated_by := actor }
        else if s.id == parent.id then
          { s with status := ScheduleStatus.cancelled, updated_by := actor }
        else s
      ({ db with schedules := newSchedules }, .ok ())

/-- `GroupScheduleViewSet.destroy` (views.py): identical store semantics to
`cancel`; only the HTTP response shape differs. -/
def destroy (db : DB) (org? : Option Nat) (pk actor : Nat) :
    DB × Except ApiError Unit :=
  match org?, resolveParent db (org?.getD 0) pk with
  | none, _ => (db, .error .orgRequired)
  | some _, none => (db, .error (.notFound "Not found."))
  | some _, some parent =>
    if !(parent.status == ScheduleStatus.pending) then
      (db, .error (.validation "Only pending group schedules can be cancelled."))
    else
      let newSchedules := db.schedules.map fun s =>
        if s.parent == some parent.id && s.status == ScheduleStatus.pending then
          { s with status := ScheduleStatus.cancelled, updated_by := actor }
        else if s.id == parent.id then
          { s with status := ScheduleStatus.cancelled, updated_by := actor }
        else s
      ({ db with schedules := newSchedules }, .ok ())

end GroupScheduleViewSet

/-! ### Dispatch adapter (`utils/sms.py`, `SMSProvider` base + mock) -/

/-- `re.sub(r'\s+', '', phone)`: strip all whitespace. -/
def stripSpace (s : String) : String :=
  ⟨s.data.filter fun c => !c.isWhitespace⟩

/-- Shared cleaning step of `_validate_phone` / `_normalise_phone`:
whitespace removed, a `+614` prefix rewritten to `04`. -/
def cleanPhone (phone : String) : String :=
  let cleaned := stripSpace phone
  if cleaned.data.take 4 = ['+', '6', '1', '4'] then ⟨'0' :: cleaned.data.drop 3⟩
  else cleaned

/-- `SMSProvider._validate_phone`: the cleaned number must match
`^04\d{8}$`. -/
def validatePhone (phone : String) : Bool :=
  let c := (cleanPhone phone).data
  c.length == 10 && decide (c.take 2 = ['0', '4']) && (c.drop 2).all (·.isDigit)

/-- `SMSProvider._normalise_phone`. -/
def normalisePhone (phone : String) : String :=
  cleanPhone phone

/-- `SMSProvider._calculate_sms_parts`: 1 part up to 160 characters,
then `ceil(length / 153)`. -/
def calculateSmsParts (message : String) : Nat :=
  let length := message.length
  if length ≤ 160 then 1 else (length + 152) / 153

/-- An entry of the `recipients` argument of `send_bulk_sms`. -/
structure BulkRecipient where
  to_phone : String
  message : String
deriving DecidableEq, Repr

/-- One per-recipient result dict as produced by the bulk path
(`success`, `message_parts`, `error`; `to` / `message_id` omitted as they
carry no claim-relevant information beyond `to`). -/
structure SendResult where
  to_phone : String := ""
  success : Bool
  message_parts : Nat
  error : Option String := none
deriving DecidableEq, Repr

/-- The dict returned by `send_bulk_sms`. -/
structure BulkResponse where
  success : Bool
  results : List SendResult
  error : Option String := none
deriving DecidableEq, Repr

/-- `SMSProvider.send_bulk_sms` base-class step: recipients whose phone
fails validation are skipped (dropped with no result); the rest are
normalised and annotated with their part count before the provider
implementation runs. -/
def normaliseRecipients (recipients : List BulkRecipient) : List BulkRecipient :=
  (recipients.filter fun r => validatePhone r.to_phone).map fun r =>
    { to_phone := normalisePhone r.to_phone, message := r.message }

/-- `MockSMSProvider._send_bulk_sms_impl`: one always-successful result per
(already filtered and normalised) recipient, in order. -/
def mockSendBulkImpl (recipients : List BulkRecipient) : BulkResponse :=
  let results := recipients.map fun r =>
    { to_phone := r.to_phone
      success := true
      message_parts := calculateSmsParts r.message
      error := none : SendResult }
  let failed := results.length - (results.filter (·.success)).length
  { success := failed == 0
    results := results
    error := if failed > 0 then some (toString failed ++ " messages failed") else none }

/-- `MockSMSProvider.send_bulk_sms`: the base-class filtering/normalisation
followed by the mock implementation. -/
def mockSendBulkSms (recipients : List BulkRecipient) : BulkResponse :=
  mockSendBulkImpl (normaliseRecipients recipients)

/-! ### Synchronous group send (`SMSViewSet.send_to_group`) -/

/-- `get_sms_limit_info(org)` (utils/limits.py), as consumed by the view:
`limit` (None = unlimited), `current`, `remaining`. -/
structure LimitInfo where
  limit : Option Nat := none
  current : Nat := 0
  remaining : Nat := 0
deriving DecidableEq, Repr

/-- Aggregate response body of `POST /api/sms/send-to-group/`, together with
the rows it created (parent in its final saved state, children in order). -/
structure GroupSendResponse where
  success : Bool
  successful : Nat
  failed : Nat
  total : Nat
  groupScheduleId : Nat
  parent : Schedule
  children : List Schedule
deriving DecidableEq, Repr

/-- The per-member result used at loop index `i`:
`bulk_result['results'][i]` when it exists, else the fallback dict
`{'success': False, 'message_parts': message_parts}`. -/
def memberResult (results : List SendResult) (messageParts i : Nat) : SendResult :=
  match results.get? i with
  | some r => r
  | none => { success := false, message_parts := messageParts }

/-- One child row created in the `send_to_group` loop for member `m` at
index `i`. -/
def mkSendChild (org : Nat) (msg : String) (gid pid now actor baseId i : Nat)
    (messageParts : Nat) (results : List SendResult) (m : Contact) : Schedule :=
  let r := memberResult results messageParts i
  { id := baseId + i
    organisation := org
    contact := some m.id
    phone := some m.phone
    text := some msg
    group := some gid
    parent := some pid
    scheduled_time := now
    sent_time := if r.success then some now else none
    status := if r.success then ScheduleStatus.sent else ScheduleStatus.failed
    message_parts := r.message_parts
    format := some MessageFormat.sms
    error := r.error
    created_by := actor
    updated_by := actor }

/-- The child rows of the send loop, in member order. -/
def mkSendChildren (org : Nat) (msg : String) (gid pid now actor baseId : Nat)
    (messageParts : Nat) (results : List SendResult) :
    List Contact → Nat → List Schedule
  | [], _ => []
  | m :: ms, i =>
    mkSendChild org msg gid pid now actor baseId i messageParts results m
      :: mkSendChildren org msg gid pid now actor baseId messageParts results ms (i + 1)

/-- The `successful` counter of the view's loop after the first `n`
iterations: one per loop index whose result has `success` true. -/
def successCount (results : List SendResult) (messageParts : Nat) : Nat → Nat
  | 0 => 0
  | n + 1 => successCount results messageParts n
      + (if (memberResult results messageParts n).success then 1 else 0)

/-- The parent's final saved state (the `if failed == 0 / elif successful
== 0 / else` block at the end of `send_to_group`). -/
def finaliseParent (parent : Schedule) (successful failed : Nat) : Schedule :=
  if failed == 0 then
    { parent with status := ScheduleStatus.sent }
  else if successful == 0 then
    { parent with status := ScheduleStatus.failed
                  error := some ("All " ++ toString failed ++ " messages failed") }
  else
    { parent with status := ScheduleStatus.sent
                  error := some (toString failed ++ " out of "
                    ++ toString (successful + failed) ++ " messages failed") }

namespace SMSViewSet

/-- `SMSViewSet.send_to_group` (views.py).  The Dispatch Adapter and the
quota check are external collaborators: the adapter's reply to
`send_bulk_sms` is passed in as `bulk`, the quota as `limitInfo`.  Resolves
the group (404), the `is_active`-and-not-opted-out member set
(`ValidationError` when empty), checks capacity, then creates the parent
(initially `processing`), one child per member whose terminal status copies
the i-th result's success flag (missing results count as failure), and
finally saves the parent with the aggregate status/error. -/
def send_to_group (db : DB) (org? : Option Nat) (group_id : Nat) (msg : String)
    (limitInfo : LimitInfo) (bulk : BulkResponse) (actor now : Nat) :
    DB × Except ApiError GroupSendResponse :=
  match org? with
  | none => (db, .error .orgRequired)
  | some org =>
    match findGroup db org group_id with
    | none => (db, .error (.notFound "Group not found."))
    | some group =>
      let members := eligibleForSend db group.id
      if members.isEmpty then
        (db, .error (.validation "No eligible contacts found in group."))
      else
        let memberCount := members.length
        if limitInfo.limit.isSome && limitInfo.remaining < memberCount then
          (db, .error (.validation
            ("Monthly SMS limit would be exceeded. Need " ++ toString memberCount
              ++ " messages but only " ++ toString limitInfo.remaining
              ++ " remaining (" ++ toString limitInfo.current ++ "/"
              ++ toString (limitInfo.limit.getD 0) ++ " used this month).")))
        else
          let messageParts :=
            match bulk.results.head? with
            | some r => r.message_parts
            | none => 1
          let parentName := pyTake msg 20 ++ (if msg.length > 20 then "..." else "")
          let parent0 : Schedule :=
            { id := db.nextId
              organisation := org
              name := some parentName
              text := some msg
              message_parts := messageParts
              group := some group.id
              scheduled_time := now
              status := ScheduleStatus.processing
              created_by := actor
              updated_by := actor }
          let children := mkSendChildren org msg group.id parent0.id now actor
            (db.nextId + 1) messageParts bulk.results members 0
          let successful := successCount bulk.results messageParts memberCount
          let failed := memberCount - successful
          let parent := finaliseParent parent0 successful failed
          ({ db with
              schedules := db.schedules ++ parent :: children
              nextId := db.nextId + 1 + children.length },
           .ok { success := failed == 0
                 successful := successful
                 failed := failed
                 total := successful + failed
                 groupScheduleId := parent.id
                 parent := parent
                 children := children })

end SMSViewSet

/-- Concrete store for witnesses: three contacts in group 7 (contact 2 is
inactive, contact 3 opted out), one template, no schedules yet. -/
def wDB : DB :=
  { schedules := []
    contacts :=
      [ { id := 1, organisation := 1, phone := "0400000001", is_active := true, opt_out := false }
      , { id := 2, organisation := 1, phone := "0400000002", is_active := false, opt_out := false }
      , { id := 3, organisation := 1, phone := "0400000003", is_active := true, opt_out := true } ]
    groups := [ { id := 7, organisation := 1, name := "G" }
              , { id := 8, organisation := 1, name := "H" } ]
    groupMembers := [ ⟨7, 1⟩, ⟨7, 2⟩, ⟨7, 3⟩, ⟨8, 3⟩ ]
    templates := [ { id := 4, organisation := 1, text := "tpl" } ]
    nextId := 100 }

/-- Concrete create request for witnesses. -/
def wCreateData : CreateData :=
  { name := "Camp", text := some "Hello", group_id := 7, scheduled_time := 10 }

/-- Post-state and response of the witness create call. -/
def wCreateOut : DB × Except ApiError (Schedule × List Schedule) :=
  GroupScheduleViewSet.create wDB (some 1) wCreateData 9 0

/-- Expected parent row of the witness create call. -/
def wParent : Schedule :=
  { id := 100, organisation := 1, name := some "Camp", text := some "Hello"
    group := some 7, scheduled_time := 10, created_by := 9, updated_by := 9 }

/-- Expected child rows of the witness create call. -/
def wChildren : List Schedule :=
  [ { id := 101, organisation := 1, text := some "Hello", contact := some 1
      phone := some "0400000001", group := some 7, parent := some 100
      scheduled_time := 10, created_by := 9, updated_by := 9 }
  , { id := 102, organisation := 1, text := some "Hello", contact := some 2
      phone := some "0400000002", group := some 7, parent := some 100
      scheduled_time := 10, created_by := 9, updated_by := 9 } ]

/-- The witness create call with every child insert forced to fail. -/
def wFailOut : DB × Except ApiError (Schedule × List Schedule) :=
  GroupScheduleViewSet.createWithInsertFailure wDB (some 1) wCreateData 9 0
    (fun s => s.parent == none)

/-- Create request addressed to group 8, whose only member is opted out. -/
def w8CreateData : CreateData :=
  { name := "Camp", text := some "Hello", group_id := 8, scheduled_time := 10 }

/-- Pending campaign parent used by the update / cancel witnesses. -/
def parent50 : Schedule :=
  { id := 50, organisation := 1, name := some "N", text := some "Old"
    group := some 7, scheduled_time := 100, created_by := 9, updated_by := 9 }

/-- Pending child of parent 50. -/
def child51 : Schedule :=
  { id := 51, organisation := 1, text := some "Old", contact := some 1
    phone := some "0400000001", group := some 7, parent := some 50
    scheduled_time := 100, created_by := 9, updated_by := 9 }

/-- Already sent child of parent 50. -/
def child52 : Schedule :=
  { id := 52, organisation := 1, text := some "Old", contact := some 2
    phone := some "0400000002", group := some 7, parent := some 50
    scheduled_time := 100, sent_time := some 120
    status := ScheduleStatus.sent, created_by := 9, updated_by := 9 }

/-- Failed child of parent 50. -/
def child53 : Schedule :=
  { id := 53, organisation := 1, text := some "Old", contact := some 3
    phone := some "0400000003", group := some 7, parent := some 50
    scheduled_time := 100, status := ScheduleStatus.failed
    error := some "boom", created_by := 9, updated_by := 9 }

/-- Cancelled child of parent 50. -/
def child54 : Schedule :=
  { id := 54, organisation := 1, text := some "Old", contact := some 1
    phone := some "0400000001", group := some 7, parent := some 50
    scheduled_time := 100, status := ScheduleStatus.cancelled
    created_by := 9, updated_by := 9 }

/-- Processing child of parent 50. -/
def child55 : Schedule :=
  { id := 55, organisation := 1, text := some "Old", contact := some 2
    phone := some "0400000002", group := some 7, parent := some 50
    scheduled_time := 100, status := ScheduleStatus.processing
    created_by := 9, updated_by := 9 }

/-- Store with an in-flight campaign: parent 50 pending, children in every
status. -/
def uDB : DB :=
  { schedules := [parent50, child51, child52, child53, child54, child55]
    contacts := wDB.contacts
    groups := wDB.groups
    groupMembers := wDB.groupMembers
    templates := wDB.templates
    nextId := 60 }

/-- Patch used by the update witnesses: new text and time (and no name). -/
def uPatch : UpdatePatch :=
  { text := some (some "New"), scheduled_time := some 200 }

/-- The `update_fields` the view computes for `uPatch`. -/
def uFields : UpdateFields :=
  { updated_by := 9, scheduled_time := some 200, text := some (some "New") }

/-- Parent 50 after the witness update. -/
def uNewParent : Schedule :=
  { id := 50, organisation := 1, name := some "N", text := some "New"
    group := some 7, scheduled_time := 200, created_by := 9, updated_by := 9 }

/-- Post-state and response of the witness update call. -/
def uOut : DB × Except ApiError Schedule :=
  GroupScheduleViewSet.update uDB (some 1) 50 uPatch 9 150

/-- Post-state and response of the witness cancel call. -/
def cOut : DB × Except ApiError Unit :=
  GroupScheduleViewSet.cancel uDB (some 1) 50 9

/-- Cancelled campaign parent (group set, parent null) under tenant 1. -/
def parent70 : Schedule :=
  { id := 70, organisation := 1, name := some "done", text := some "T"
    group := some 7, scheduled_time := 100
    status := ScheduleStatus.cancelled, created_by := 9, updated_by := 9 }

/-- Processing campaign parent under tenant 1. -/
def parent71 : Schedule :=
  { id := 71, organisation := 1, name := some "busy", text := some "T"
    group := some 7, scheduled_time := 100
    status := ScheduleStatus.processing, created_by := 9, updated_by := 9 }

/-- Store containing a cancelled and a processing campaign parent. -/
def c4DB : DB :=
  { schedules := [parent70, parent71]
    contacts := wDB.contacts
    groups := wDB.groups
    groupMembers := wDB.groupMembers
    templates := wDB.templates
    nextId := 80 }

/-- Patch carrying a `status` value (the serializer accepts it; the view
ignores it). -/
def statusPatch : UpdatePatch :=
  { text := some (some "New"), status := some ScheduleStatus.sent }

/-- Child 51 after the status-carrying witness update: new text, same
status. -/
def c10New : Schedule :=
  { id := 51, organisation := 1, text := some "New", contact := some 1
    phone := some "0400000001", group := some 7, parent := some 50
    scheduled_time := 100, created_by := 9, updated_by := 9 }

/-- The `successful` counter restricted to the loop window starting at
index `i`, of the given width. -/
def successCountFrom (results : List SendResult) (messageParts : Nat) :
    Nat → Nat → Nat
  | _, 0 => 0
  | i, k + 1 => (if (memberResult results messageParts i).success then 1 else 0)
      + successCountFrom results messageParts (i + 1) k

/-- Store for the synchronous group-send witness: three active, opted-in
members of group 7. -/
def sDB : DB :=
  { schedules := []
    contacts :=
      [ { id := 1, organisation := 1, phone := "0400000001", is_active := true, opt_out := false }
      , { id := 2, organisation := 1, phone := "0400000002", is_active := true, opt_out := false }
      , { id := 3, organisation := 1, phone := "0400000003", is_active := true, opt_out := false } ]
    groups := [ { id := 7, organisation := 1, name := "G" } ]
    groupMembers := [ ⟨7, 1⟩, ⟨7, 2⟩, ⟨7, 3⟩ ]
    templates := []
    nextId := 200 }

/-- Adapter reply for the witness: [success, fail, success]. -/
def sBulk : BulkResponse :=
  { success := false
    results :=
      [ { to_phone := "0400000001", success := true, message_parts := 1 }
      , { to_phone := "0400000002", success := false, message_parts := 1, error := some "err" }
      , { to_phone := "0400000003", success := true, message_parts := 1 } ]
    error := some "1 messages failed" }

/-- Expected parent of the witness group send: sent, with the partial
failure annotated. -/
def sParent : Schedule :=
  { id := 200, organisation := 1, name := some "Hi", text := some "Hi"
    group := some 7, scheduled_time := 500
    status := ScheduleStatus.sent
    error := some "1 out of 3 messages failed"
    created_by := 9, updated_by := 9 }

/-- Expected children of the witness group send: [sent, failed, sent]. -/
def sChildren : List Schedule :=
  [ { id := 201, organisation := 1, text := some "Hi", contact := some 1
      phone := some "0400000001", group := some 7, parent := some 200
      scheduled_time := 500, sent_time := some 500
      status := ScheduleStatus.sent, format := some MessageFormat.sms
      created_by := 9, updated_by := 9 }
  , { id := 202, organisation := 1, text := some "Hi", contact := some 2
      phone := some "0400000002", group := some 7, parent := some 200
      scheduled_time := 500, status := ScheduleStatus.failed
      error := some "err", format := some MessageFormat.sms
      created_by := 9, updated_by := 9 }
  , { id := 203, organisation := 1, text := some "Hi", contact := some 3
      phone := some "0400000003", group := some 7, parent := some 200
      scheduled_time := 500, sent_time := some 500
      status := ScheduleStatus.sent, format := some MessageFormat.sms
      created_by := 9, updated_by := 9 } ]

/-- Expected response of the witness group send. -/
def sResp : GroupSendResponse :=
  { success := false, successful := 2, failed := 1, total := 3
    groupScheduleId := 200, parent := sParent, children := sChildren }

/-- Post-state and response of the witness group-send call. -/
def sOut : DB × Except ApiError GroupSendResponse :=
  SMSViewSet.send_to_group sDB (some 1) 7 "Hi"
    { limit := none, current := 0, remaining := 0 } sBulk 9 500

/-- Concrete bulk recipient list with one valid and one invalid phone. -/
def wRecipients : List BulkRecipient :=
  [ { to_phone := "0400000001", message := "Hi" }
  , { to_phone := "123", message := "Hi" } ]

/-! ### Theorems -/

theorem mkFanoutChildren_length (org : Nat) (template : Option Nat)
    (text : String) (gid pid sched actor baseId : Nat) (ms : List Contact)
    (i : Nat) :
    (mkFanoutChildren org template text gid pid sched actor baseId ms i).length
      = ms.length := by
  induction ms generalizing i with
  | nil => rfl
  | cons m ms ih => simp [mkFanoutChildren, ih]

theorem mkFanoutChildren_get? (org : Nat) (template : Option Nat)
    (text : String) (gid pid sched actor baseId : Nat) (ms : List Contact)
    (i j : Nat) :
    (mkFanoutChildren org template text gid pid sched actor baseId ms i).get? j
      = (ms.get? j).map
          (mkFanoutChild org template text gid pid sched actor baseId (i + j)) := by
  induction ms generalizing i j with
  | nil => simp [mkFanoutChildren]
  | cons m ms ih =>
    cases j with
    | zero => simp [mkFanoutChildren]
    | succ j =>
      simp only [mkFanoutChildren, List.get?_cons_succ]
      rw [ih (i + 1) j]
      have harith : i + 1 + j = i + (j + 1) := by omega
      rw [harith]

theorem mkSendChildren_length (org : Nat) (msg : String)
    (gid pid now actor baseId messageParts : Nat) (results : List SendResult)
    (ms : List Contact) (i : Nat) :
    (mkSendChildren org msg gid pid now actor baseId messageParts results ms i).length
      = ms.length := by
  induction ms generalizing i with
  | nil => rfl
  | cons m ms ih => simp [mkSendChildren, ih]

theorem mkSendChildren_get? (org : Nat) (msg : String)
    (gid pid now actor baseId messageParts : Nat) (results : List SendResult)
    (ms : List Contact) (i j : Nat) :
    (mkSendChildren org msg gid pid now actor baseId messageParts results ms i).get? j
      = (ms.get? j).map
          (mkSendChild org msg gid pid now actor baseId (i + j) messageParts results) := by
  induction ms generalizing i j with
  | nil => simp [mkSendChildren]
  | cons m ms ih =>
    cases j with
    | zero => simp [mkSendChildren]
    | succ j =>
      simp only [mkSendChildren, List.get?_cons_succ]
      rw [ih (i + 1) j]
      have harith : i + 1 + j = i + (j + 1) := by omega
      rw [harith]

/-- Claim C1: a campaign created via fan-out on a group with a non-empty
eligible recipient set yields one parent unit (group set, parent null,
contact null, status pending) plus exactly one child per resolved eligible
recipient; every child references the parent, shares its tenant, carries
the recipient's contact and phone, the parent's text, template and
scheduled time, and is pending. -/
theorem fanout_create_shape (db db' : DB) (org : Nat) (data : CreateData)
    (actor now : Nat) (p : Schedule) (cs : List Schedule)
    (h : GroupScheduleViewSet.create db (some org) data actor now
          = (db', Except.ok (p, cs))) :
    p.group = some data.group_id ∧ p.parent = none ∧ p.contact = none
      ∧ p.status = ScheduleStatus.pending
      ∧ cs.length = (eligibleForCreate db data.group_id).length
      ∧ ∀ j c m, cs.get? j = some c
          → (eligibleForCreate db data.group_id).get? j = some m
          → c.parent = some p.id ∧ c.organisation = p.organisation
            ∧ c.contact = some m.id ∧ c.phone = some m.phone
            ∧ c.text = p.text ∧ c.template = p.template
            ∧ c.scheduled_time = p.scheduled_time
            ∧ c.status = ScheduleStatus.pending := by
  unfold GroupScheduleViewSet.create at h
  split at h
  · simp at h
  · split at h
    · next horg => exact Option.noConfusion horg
    · next org' horg =>
      obtain rfl : org = org' := Option.some.inj horg
      split at h
      · simp at h
      · next group hg =>
        have hpred := List.find?_some hg
        have hgid : group.id = data.group_id := by
          simp [Bool.and_eq_true, beq_iff_eq] at hpred
          exact hpred.1
        split at h
        · simp at h
        · next template text heq =>
          dsimp only [] at h
          split at h
          · simp at h
          · rw [Prod.mk.injEq] at h
            obtain ⟨hdb, hresp⟩ := h
            rw [Except.ok.injEq, Prod.mk.injEq] at hresp
            obtain ⟨hp, hcs⟩ := hresp
            subst hp; subst hcs
            refine ⟨by simp [hgid], rfl, rfl, rfl, ?_, ?_⟩
            · rw [mkFanoutChildren_length, hgid]
            · intro j c m hc hm
              rw [mkFanoutChildren_get?, hgid, hm] at hc
              simp only [Option.map_some'] at hc
              cases hc
              simp [mkFanoutChild]

/-- Witness for C1 at the concrete store. -/
theorem fanout_create_shape_witness :
    wParent.group = some wCreateData.group_id ∧ wParent.parent = none
      ∧ wParent.contact = none ∧ wParent.status = ScheduleStatus.pending
      ∧ wChildren.length = (eligibleForCreate wDB wCreateData.group_id).length
      ∧ ∀ j c m, wChildren.get? j = some c
          → (eligibleForCreate wDB wCreateData.group_id).get? j = some m
          → c.parent = some wParent.id ∧ c.organisation = wParent.organisation
            ∧ c.contact = some m.id ∧ c.phone = some m.phone
            ∧ c.text = wParent.text ∧ c.template = wParent.template
            ∧ c.scheduled_time = wParent.scheduled_time
            ∧ c.status = ScheduleStatus.pending :=
  fanout_create_shape wDB wCreateOut.1 1 wCreateData 9 0 wParent wChildren
    (by exact rfl)

/-- Claim C6: fan-out is all-or-nothing.  Whenever fan-out creation answers
with an error — in particular when a child insert fails inside the atomic
block, which rolls the parent insert back — the store afterwards is exactly
the pre-state: under fresh-id hypotheses, no row carries the would-be
parent's id and no row references it, so no orphan parent is observable. -/
theorem fanout_all_or_nothing (db db' : DB) (org? : Option Nat)
    (data : CreateData) (actor now : Nat) (insertOk : Schedule → Bool)
    (e : ApiError)
    (h : GroupScheduleViewSet.createWithInsertFailure db org? data actor now insertOk
          = (db', Except.error e))
    (hfresh : ∀ s ∈ db.schedules, s.id < db.nextId)
    (hpfresh : ∀ s ∈ db.schedules, ∀ q, s.parent = some q → q < db.nextId) :
    db' = db ∧ (∀ s ∈ db'.schedules, s.id ≠ db.nextId)
      ∧ (∀ s ∈ db'.schedules, s.parent ≠ some db.nextId) := by
  have hdb : db = db' := by
    unfold GroupScheduleViewSet.createWithInsertFailure at h
    split at h
    · exact congrArg Prod.fst h
    · split at h
      · exact congrArg Prod.fst h
      · split at h
        · exact congrArg Prod.fst h
        · split at h
          · exact congrArg Prod.fst h
          · dsimp only [] at h
            split at h
            · exact congrArg Prod.fst h
            · split at h
              · simp [Prod.ext_iff] at h
              · exact congrArg Prod.fst h
  refine ⟨hdb.symm, ?_, ?_⟩
  · intro s hs
    have := hfresh s (hdb ▸ hs)
    omega
  · intro s hs hq
    have := hpfresh s (hdb ▸ hs) db.nextId hq
    omega

/-- Witness for C6: forcing the child inserts to fail rolls the whole
fan-out back on the concrete store. -/
theorem fanout_all_or_nothing_witness :
    wFailOut.1 = wDB ∧ (∀ s ∈ wFailOut.1.schedules, s.id ≠ wDB.nextId)
      ∧ (∀ s ∈ wFailOut.1.schedules, s.parent ≠ some wDB.nextId) :=
  fanout_all_or_nothing wDB wFailOut.1 (some 1) wCreateData 9 0
    (fun s => s.parent == none) (ApiError.validation "Transaction aborted.")
    (by exact rfl) (by simp [wDB]) (by simp [wDB])

/-- Claim C8: a group whose resolved eligible recipient set is empty (for
example all members opted out) makes campaign creation and synchronous
group-send each fail with a ValidationError, leaving the store untouched —
no parent and no children are created. -/
theorem empty_group_rejected (db : DB) (org gid : Nat) (data : CreateData)
    (actor now : Nat) (group : ContactGroup) (tpl : Option Nat) (txt : String)
    (msg : String) (limitInfo : LimitInfo) (bulk : BulkResponse)
    (hg : findGroup db org gid = some group)
    (hv : validCreateData data now = true)
    (hgid : data.group_id = gid)
    (hc : resolveContentCreate db org data = Except.ok (tpl, txt))
    (hmc : eligibleForCreate db group.id = [])
    (hms : eligibleForSend db group.id = []) :
    GroupScheduleViewSet.create db (some org) data actor now
        = (db, Except.error (ApiError.validation "Group has no members."))
    ∧ SMSViewSet.send_to_group db (some org) gid msg limitInfo bulk actor now
        = (db, Except.error (ApiError.validation "No eligible contacts found in group.")) := by
  subst hgid
  constructor
  · simp [GroupScheduleViewSet.create, hv, hg, hc, hmc]
  · simp [SMSViewSet.send_to_group, hg, hms]

/-- Witness for C8 at the concrete store. -/
theorem empty_group_rejected_witness :
    GroupScheduleViewSet.create wDB (some 1) w8CreateData 9 0
        = (wDB, Except.error (ApiError.validation "Group has no members."))
    ∧ SMSViewSet.send_to_group wDB (some 1) 8 "Hi"
        { limit := none, current := 0, remaining := 0 }
        { success := true, results := [], error := none } 9 0
        = (wDB, Except.error (ApiError.validation "No eligible contacts found in group.")) :=
  empty_group_rejected wDB 1 8 w8CreateData 9 0 ⟨8, 1, "H"⟩ none "Hello" "Hi"
    { limit := none, current := 0, remaining := 0 }
    { success := true, results := [], error := none }
    (by exact rfl) (by exact rfl) rfl (by exact rfl) (by exact rfl) (by exact rfl)

/-- Claim C9: the eligibility filter is asymmetric between the two fan-out
paths.  Fan-out-on-create keeps every group member with `opt_out = false`
regardless of `is_active`; the direct send path additionally requires
`is_active = true`; hence a group containing an inactive, non-opted-out
member resolves different recipient sets on the two paths. -/
theorem eligibility_asymmetry (db : DB) (gid : Nat) (c : Contact)
    (hc : c ∈ db.contacts) (hm : memberOfGroup db gid c.id = true)
    (hopt : c.opt_out = false) (hact : c.is_active = false) :
    (∀ d, d ∈ eligibleForCreate db gid
        ↔ d ∈ db.contacts ∧ memberOfGroup db gid d.id = true ∧ d.opt_out = false)
      ∧ (∀ d, d ∈ eligibleForSend db gid
        ↔ d ∈ db.contacts ∧ memberOfGroup db gid d.id = true
            ∧ d.is_active = true ∧ d.opt_out = false)
      ∧ c ∈ eligibleForCreate db gid
      ∧ c ∉ eligibleForSend db gid
      ∧ eligibleForCreate db gid ≠ eligibleForSend db gid := by
  have hcreate : ∀ d, d ∈ eligibleForCreate db gid
      ↔ d ∈ db.contacts ∧ memberOfGroup db gid d.id = true ∧ d.opt_out = false := by
    intro d
    simp [eligibleForCreate, List.mem_filter, Bool.and_eq_true, Bool.not_eq_true']
  have hsend : ∀ d, d ∈ eligibleForSend db gid
      ↔ d ∈ db.contacts ∧ memberOfGroup db gid d.id = true
          ∧ d.is_active = true ∧ d.opt_out = false := by
    intro d
    simp [eligibleForSend, List.mem_filter, Bool.and_eq_true, Bool.not_eq_true']
    tauto
  have hin : c ∈ eligibleForCreate db gid := (hcreate c).mpr ⟨hc, hm, hopt⟩
  have hout : c ∉ eligibleForSend db gid := by
    intro hmem
    have := ((hsend c).mp hmem).2.2.1
    rw [hact] at this
    exact Bool.false_ne_true this
  exact ⟨hcreate, hsend, hin, hout, fun heq => hout (heq ▸ hin)⟩

/-- Witness for C9 at the concrete store: contact 2 is inactive and not
opted out, and belongs to group 7. -/
theorem eligibility_asymmetry_witness :
    (∀ d, d ∈ eligibleForCreate wDB 7
        ↔ d ∈ wDB.contacts ∧ memberOfGroup wDB 7 d.id = true ∧ d.opt_out = false)
      ∧ (∀ d, d ∈ eligibleForSend wDB 7
        ↔ d ∈ wDB.contacts ∧ memberOfGroup wDB 7 d.id = true
            ∧ d.is_active = true ∧ d.opt_out = false)
      ∧ (⟨2, 1, "0400000002", false, false⟩ : Contact) ∈ eligibleForCreate wDB 7
      ∧ (⟨2, 1, "0400000002", false, false⟩ : Contact) ∉ eligibleForSend wDB 7
      ∧ eligibleForCreate wDB 7 ≠ eligibleForSend wDB 7 :=
  eligibility_asymmetry wDB 7 ⟨2, 1, "0400000002", false, false⟩
    (by simp [wDB]) (by exact rfl) rfl rfl

/-- `buildUpdateFields` always records the acting user in `updated_by`. -/
theorem buildUpdateFields_updated_by (db : DB) (org : Nat)
    (patch : UpdatePatch) (actor : Nat) (uf : UpdateFields)
    (h : buildUpdateFields db org patch actor = Except.ok uf) :
    uf.updated_by = actor := by
  unfold buildUpdateFields at h
  dsimp only [] at h
  split at h
  · obtain rfl := Except.ok.inj h; rfl
  · obtain rfl := Except.ok.inj h; rfl
  · split at h
    · exact Except.noConfusion h
    · obtain rfl := Except.ok.inj h; rfl

/-- Claim C2: a propagation update on a pending parent leaves every child
whose status is not `pending` (sent, failed, cancelled or processing)
completely unchanged, while every `pending` child receives exactly the
shared subset of the patch — text, template, scheduled time and the
updated-by actor — and explicitly not `name`, which applies to the parent
only. -/
theorem update_frame (db db' : DB) (org pk : Nat) (patch : UpdatePatch)
    (actor now : Nat) (newParent : Schedule) (uf : UpdateFields)
    (h : GroupScheduleViewSet.update db (some org) pk patch actor now
          = (db', Except.ok newParent))
    (huf : buildUpdateFields db org patch actor = Except.ok uf)
    (hnc : ∀ s ∈ db.schedules, s.parent = some pk → s.id ≠ pk) :
    db'.schedules.length = db.schedules.length
      ∧ ∀ j sOld sNew, db.schedules.get? j = some sOld
          → db'.schedules.get? j = some sNew
          → (sOld.parent = some pk → sOld.status ≠ ScheduleStatus.pending
              → sNew = sOld)
            ∧ (sOld.parent = some pk → sOld.status = ScheduleStatus.pending
              → sNew.name = sOld.name ∧ sNew.status = sOld.status
                ∧ sNew.contact = sOld.contact ∧ sNew.phone = sOld.phone
                ∧ sNew.parent = sOld.parent
                ∧ sNew.organisation = sOld.organisation
                ∧ sNew.sent_time = sOld.sent_time ∧ sNew.error = sOld.error
                ∧ sNew.updated_by = actor
                ∧ sNew.text = (match uf.text with
                    | some t => t | none => sOld.text)
                ∧ sNew.template = (match uf.template with
                    | some t => t | none => sOld.template)
                ∧ sNew.scheduled_time = (match uf.scheduled_time with
                    | some t => t | none => sOld.scheduled_time)) := by
  have hub : uf.updated_by = actor :=
    buildUpdateFields_updated_by db org patch actor uf huf
  unfold GroupScheduleViewSet.update at h
  split at h
  · simp [Prod.ext_iff] at h
  · simp [Prod.ext_iff] at h
  · next org' parent horg hpar =>
    obtain rfl : org = org' := Option.some.inj horg
    split at h
    · simp [Prod.ext_iff] at h
    · split at h
      · simp [Prod.ext_iff] at h
      · split at h
        · simp [Prod.ext_iff] at h
        · next uf' hbuild =>
          rw [huf] at hbuild
          obtain rfl : uf = uf' := Except.ok.inj hbuild
          have hpk : parent.id = pk := by
            have := List.find?_some hpar
            simpa [beq_iff_eq] using this
          rw [Prod.mk.injEq] at h
          obtain ⟨hdb, _⟩ := h
          subst hdb
          refine ⟨by simp, ?_⟩
          intro j sOld sNew hold hnew
          have hmem : sOld ∈ db.schedules := List.get?_mem hold
          simp only [List.get?_map, hold, Option.map_some'] at hnew
          obtain rfl : sNew = _ := (Option.some.inj hnew).symm
          constructor
          · intro hpar' hstat
            have hid : sOld.id ≠ pk := hnc sOld hmem hpar'
            simp [hpk, hid, hpar', hstat]
          · intro hpar' hstat
            have hid : sOld.id ≠ pk := hnc sOld hmem hpar'
            simp [hpk, hid, hpar', hstat, hub, applyFields, childFields]

/-- Witness for C2 at the concrete store. -/
theorem update_frame_witness :
    uOut.1.schedules.length = uDB.schedules.length
      ∧ ∀ j sOld sNew, uDB.schedules.get? j = some sOld
          → uOut.1.schedules.get? j = some sNew
          → (sOld.parent = some 50 → sOld.status ≠ ScheduleStatus.pending
              → sNew = sOld)
            ∧ (sOld.parent = some 50 → sOld.status = ScheduleStatus.pending
              → sNew.name = sOld.name ∧ sNew.status = sOld.status
                ∧ sNew.contact = sOld.contact ∧ sNew.phone = sOld.phone
                ∧ sNew.parent = sOld.parent
                ∧ sNew.organisation = sOld.organisation
                ∧ sNew.sent_time = sOld.sent_time ∧ sNew.error = sOld.error
                ∧ sNew.updated_by = 9
                ∧ sNew.text = (match uFields.text with
                    | some t => t | none => sOld.text)
                ∧ sNew.template = (match uFields.template with
                    | some t => t | none => sOld.template)
                ∧ sNew.scheduled_time = (match uFields.scheduled_time with
                    | some t => t | none => sOld.scheduled_time)) :=
  update_frame uDB uOut.1 1 50 uPatch 9 150 uNewParent uFields
    (by exact rfl) (by exact rfl) (by decide)

/-- `destroy` and `cancel` have identical store semantics; they differ only
in the HTTP response shape. -/
theorem destroy_eq_cancel :
    @GroupScheduleViewSet.destroy = @GroupScheduleViewSet.cancel := rfl

/-- Claim C3: cancelling a pending campaign parent sets the parent's status
to cancelled, turns every previously pending child to cancelled with the
acting user recorded, and leaves every previously terminal child (sent,
failed, cancelled) exactly as it was — cancellation is never retroactive.
The `destroy` endpoint produces the identical post-state. -/
theorem cancel_semantics (db db' : DB) (org pk actor : Nat)
    (h : GroupScheduleViewSet.cancel db (some org) pk actor
          = (db', Except.ok ()))
    (hnc : ∀ s ∈ db.schedules, s.parent = some pk → s.id ≠ pk) :
    db'.schedules.length = db.schedules.length
      ∧ (∀ j sOld sNew, db.schedules.get? j = some sOld
          → db'.schedules.get? j = some sNew
          → (sOld.id = pk
              → sNew = { sOld with status := ScheduleStatus.cancelled
                                   updated_by := actor })
            ∧ (sOld.parent = some pk → sOld.status = ScheduleStatus.pending
              → sNew = { sOld with status := ScheduleStatus.cancelled
                                   updated_by := actor })
            ∧ (sOld.parent = some pk
              → (sOld.status = ScheduleStatus.sent
                  ∨ sOld.status = ScheduleStatus.failed
                  ∨ sOld.status = ScheduleStatus.cancelled)
              → sNew = sOld))
      ∧ GroupScheduleViewSet.destroy db (some org) pk actor
          = (db', Except.ok ()) := by
  have hdestroy : GroupScheduleViewSet.destroy db (some org) pk actor
      = (db', Except.ok ()) := by rw [destroy_eq_cancel]; exact h
  unfold GroupScheduleViewSet.cancel at h
  split at h
  · simp [Prod.ext_iff] at h
  · simp [Prod.ext_iff] at h
  · next org' parent horg hpar =>
    obtain rfl : org = org' := Option.some.inj horg
    split at h
    · simp [Prod.ext_iff] at h
    · have hpk : parent.id = pk := by
        have := List.find?_some hpar
        simpa [beq_iff_eq] using this
      rw [Prod.mk.injEq] at h
      obtain ⟨hdb, _⟩ := h
      subst hdb
      refine ⟨by simp, ?_, hdestroy⟩
      intro j sOld sNew hold hnew
      have hmem : sOld ∈ db.schedules := List.get?_mem hold
      simp only [List.get?_map, hold, Option.map_some'] at hnew
      obtain rfl : sNew = _ := (Option.some.inj hnew).symm
      refine ⟨?_, ?_, ?_⟩
      · intro hid
        have hnp : sOld.parent ≠ some pk := fun hp => hnc sOld hmem hp hid
        simp [hpk, hid, hnp]
      · intro hpar' hstat
        simp [hpk, hpar', hstat]
      · intro hpar' hstat
        have hid : sOld.id ≠ pk := hnc sOld hmem hpar'
        have hstat' : sOld.status ≠ ScheduleStatus.pending := by
          rcases hstat with h1 | h1 | h1 <;> simp [h1]
        simp [hpk, hid, hpar', hstat']

/-- Witness for C3 at the concrete store. -/
theorem cancel_semantics_witness :
    cOut.1.schedules.length = uDB.schedules.length
      ∧ (∀ j sOld sNew, uDB.schedules.get? j = some sOld
          → cOut.1.schedules.get? j = some sNew
          → (sOld.id = 50
              → sNew = { sOld with status := ScheduleStatus.cancelled
                                   updated_by := 9 })
            ∧ (sOld.parent = some 50 → sOld.status = ScheduleStatus.pending
              → sNew = { sOld with status := ScheduleStatus.cancelled
                                   updated_by := 9 })
            ∧ (sOld.parent = some 50
              → (sOld.status = ScheduleStatus.sent
                  ∨ sOld.status = ScheduleStatus.failed
                  ∨ sOld.status = ScheduleStatus.cancelled)
              → sNew = sOld))
      ∧ GroupScheduleViewSet.destroy uDB (some 1) 50 9
          = (cOut.1, Except.ok ()) :=
  cancel_semantics uDB cOut.1 1 50 9 (by exact rfl) (by decide)

/-- Counterexample to C4: a cancelled parent of tenant 1 does not get a
ValidationError from update or cancel — the tenant queryset excludes
cancelled parents, so both answer NotFound instead. -/
theorem cancelled_parent_gets_not_found :
    (GroupScheduleViewSet.update c4DB (some 1) 70 uPatch 9 150).2
        = Except.error (ApiError.notFound "Not found.")
      ∧ (GroupScheduleViewSet.cancel c4DB (some 1) 70 9).2
        = Except.error (ApiError.notFound "Not found.")
      ∧ GroupScheduleViewSet.resolveParent c4DB 1 70 = none
      ∧ parent70 ∈ c4DB.schedules
      ∧ parent70.status = ScheduleStatus.cancelled := by decide

/-- Claim C4 as amended: a campaign parent that resolves under the tenant
queryset and is not pending (which can only be processing, sent or failed —
the queryset excludes cancelled parents, so those get NotFound instead)
makes update and cancel fail with a ValidationError, leaving the store
unchanged. -/
theorem nonpending_mutation_rejected (db : DB) (org pk : Nat)
    (patch : UpdatePatch) (actor now : Nat) (parent : Schedule)
    (hpar : GroupScheduleViewSet.resolveParent db org pk = some parent)
    (hstat : parent.status ≠ ScheduleStatus.pending) :
    GroupScheduleViewSet.update db (some org) pk patch actor now
        = (db, Except.error (ApiError.validation
            "Only pending group schedules can be updated."))
      ∧ GroupScheduleViewSet.cancel db (some org) pk actor
        = (db, Except.error (ApiError.validation
            "Only pending group schedules can be cancelled."))
      ∧ (∀ s ∈ GroupScheduleViewSet.getQueryset db org,
          s.status ≠ ScheduleStatus.cancelled) := by
  have hb : (parent.status == ScheduleStatus.pending) = false := by
    cases hs : parent.status <;> simp_all
  refine ⟨?_, ?_, ?_⟩
  · simp [GroupScheduleViewSet.update, hpar, hb]
  · simp [GroupScheduleViewSet.cancel, hpar, hb]
  · intro s hs
    have := List.of_mem_filter hs
    simp only [Bool.and_eq_true, Bool.not_eq_true', beq_eq_false_iff_ne] at this
    exact this.2

/-- Witness for the amended C4 at the concrete store: the processing parent
71 resolves and is rejected with a ValidationError by both operations. -/
theorem nonpending_mutation_rejected_witness :
    GroupScheduleViewSet.update c4DB (some 1) 71 uPatch 9 150
        = (c4DB, Except.error (ApiError.validation
            "Only pending group schedules can be updated."))
      ∧ GroupScheduleViewSet.cancel c4DB (some 1) 71 9
        = (c4DB, Except.error (ApiError.validation
            "Only pending group schedules can be cancelled."))
      ∧ (∀ s ∈ GroupScheduleViewSet.getQueryset c4DB 1,
          s.status ≠ ScheduleStatus.cancelled) :=
  nonpending_mutation_rejected c4DB 1 71 uPatch 9 150 parent71
    (by exact rfl) (by decide)

/-- Claim C10: whatever patch the update serializer accepts — including one
carrying a `status` value, which `UpdatePatch` deliberately models — the
update operation never changes the `status` column of the parent or of any
child: the written columns are drawn only from name, scheduled time, text,
template and the updated-by actor. -/
theorem update_preserves_status (db : DB) (org? : Option Nat) (pk : Nat)
    (patch : UpdatePatch) (actor now : Nat) :
    ((GroupScheduleViewSet.update db org? pk patch actor now).1).schedules.length
        = db.schedules.length
      ∧ ∀ j sOld sNew, db.schedules.get? j = some sOld
          → ((GroupScheduleViewSet.update db org? pk patch actor now).1).schedules.get? j
              = some sNew
          → sNew.status = sOld.status := by
  have base : ∀ j sOld sNew, db.schedules.get? j = some sOld
      → db.schedules.get? j = some sNew → sNew.status = sOld.status := by
    intro j sOld sNew h1 h2
    rw [h1] at h2
    obtain rfl := Option.some.inj h2
    rfl
  unfold GroupScheduleViewSet.update
  split
  · exact ⟨rfl, base⟩
  · exact ⟨rfl, base⟩
  · split
    · exact ⟨rfl, base⟩
    · split
      · exact ⟨rfl, base⟩
      · split
        · exact ⟨rfl, base⟩
        · refine ⟨by simp, ?_⟩
          intro j sOld sNew h1 h2
          simp only [List.get?_map, h1, Option.map_some'] at h2
          obtain rfl := (Option.some.inj h2).symm
          split
          · simp [applyFields]
          · split
            · simp [applyFields, childFields]
            · rfl

/-- Witness for C10 at the concrete store: the patch asking for status
`sent` leaves the pending child 51 pending. -/
theorem update_preserves_status_witness :
    ((GroupScheduleViewSet.update uDB (some 1) 50 statusPatch 9 150).1).schedules.length
        = uDB.schedules.length
      ∧ c10New.status = child51.status :=
  ⟨(update_preserves_status uDB (some 1) 50 statusPatch 9 150).1,
   (update_preserves_status uDB (some 1) 50 statusPatch 9 150).2 1 child51 c10New
     (by decide) (by decide)⟩

theorem successCountFrom_succ (results : List SendResult) (parts : Nat)
    (k : Nat) : ∀ i, successCountFrom results parts i (k + 1)
      = successCountFrom results parts i k
        + (if (memberResult results parts (i + k)).success then 1 else 0) := by
  induction k with
  | zero => intro i; simp [successCountFrom]
  | succ k ih =>
    intro i
    have h1 : i + (k + 1) = (i + 1) + k := by omega
    show (if (memberResult results parts i).success then 1 else 0)
        + successCountFrom results parts (i + 1) (k + 1)
      = (if (memberResult results parts i).success then 1 else 0)
        + successCountFrom results parts (i + 1) k
        + (if (memberResult results parts (i + (k + 1))).success then 1 else 0)
    rw [ih (i + 1), h1]
    omega

theorem successCountFrom_zero (results : List SendResult) (parts n : Nat) :
    successCountFrom results parts 0 n = successCount results parts n := by
  induction n with
  | zero => rfl
  | succ n ih =>
    rw [successCountFrom_succ, ih]
    simp [successCount]

theorem mkSendChildren_sent_count (org : Nat) (msg : String)
    (gid pid now actor baseId parts : Nat) (results : List SendResult)
    (ms : List Contact) (i : Nat) :
    ((mkSendChildren org msg gid pid now actor baseId parts results ms i).filter
        (fun c => c.status == ScheduleStatus.sent)).length
      = successCountFrom results parts i ms.length := by
  induction ms generalizing i with
  | nil => rfl
  | cons m ms ih =>
    simp only [mkSendChildren, List.filter_cons]
    by_cases hs : (memberResult results parts i).success
    · simp [mkSendChild, hs, successCountFrom, List.length_cons, ih (i + 1)]
      omega
    · simp [mkSendChild, hs, successCountFrom, ih (i + 1)]

theorem mkSendChildren_status_split (org : Nat) (msg : String)
    (gid pid now actor baseId parts : Nat) (results : List SendResult)
    (ms : List Contact) (i : Nat) :
    ((mkSendChildren org msg gid pid now actor baseId parts results ms i).filter
        (fun c => c.status == ScheduleStatus.sent)).length
      + ((mkSendChildren org msg gid pid now actor baseId parts results ms i).filter
          (fun c => c.status == ScheduleStatus.failed)).length
      = ms.length := by
  induction ms generalizing i with
  | nil => rfl
  | cons m ms ih =>
    have h := ih (i + 1)
    simp only [mkSendChildren, List.filter_cons]
    by_cases hs : (memberResult results parts i).success
    · simp only [mkSendChild, hs, if_true]
      simp
      omega
    · simp only [mkSendChild, hs, if_false]
      simp
      omega

/-- Claim C5: in a synchronous group send the parent's final state is
determined by the children's outcomes — zero failed children give a `sent`
parent with no error; all children failed give a `failed` parent whose
error summarizes the failure count; a mixed outcome gives a `sent` parent
with an error noting how many of the total failed. -/
theorem group_send_aggregation (db db' : DB) (org? : Option Nat)
    (gid : Nat) (msg : String) (limitInfo : LimitInfo) (bulk : BulkResponse)
    (actor now : Nat) (resp : GroupSendResponse)
    (h : SMSViewSet.send_to_group db org? gid msg limitInfo bulk actor now
          = (db', Except.ok resp)) :
    resp.total = resp.successful + resp.failed
      ∧ resp.successful = (resp.children.filter
          (fun c => c.status == ScheduleStatus.sent)).length
      ∧ resp.failed = (resp.children.filter
          (fun c => c.status == ScheduleStatus.failed)).length
      ∧ (resp.failed = 0
          → resp.parent.status = ScheduleStatus.sent ∧ resp.parent.error = none)
      ∧ (resp.failed ≠ 0 → resp.successful = 0
          → resp.parent.status = ScheduleStatus.failed
            ∧ resp.parent.error
                = some ("All " ++ toString resp.failed ++ " messages failed"))
      ∧ (resp.failed ≠ 0 → resp.successful ≠ 0
          → resp.parent.status = ScheduleStatus.sent
            ∧ resp.parent.error = some (toString resp.failed ++ " out of "
                ++ toString (resp.successful + resp.failed)
                ++ " messages failed")) := by
  unfold SMSViewSet.send_to_group at h
  split at h
  · simp [Prod.ext_iff] at h
  · next _ org =>
    split at h
    · simp [Prod.ext_iff] at h
    · next group hg =>
      dsimp only [] at h
      split at h
      · simp [Prod.ext_iff] at h
      · next hne =>
        split at h
        · simp [Prod.ext_iff] at h
        · rw [Prod.mk.injEq] at h
          obtain ⟨hdb, hresp⟩ := h
          obtain rfl := Except.ok.inj hresp
          set ms := eligibleForSend db group.id with hms
          set parts := (match bulk.results.head? with
            | some r => r.message_parts
            | none => 1) with hparts
          have hsent := mkSendChildren_sent_count org msg group.id db.nextId
            now actor (db.nextId + 1) parts bulk.results ms 0
          have hsplit := mkSendChildren_status_split org msg group.id db.nextId
            now actor (db.nextId + 1) parts bulk.results ms 0
          have hzero := successCountFrom_zero bulk.results parts ms.length
          refine ⟨rfl, ?_, ?_, ?_, ?_, ?_⟩
          · simp only []
            omega
          · simp only []
            omega
          · intro hf
            simp only [] at hf
            have hfb : ((ms.length - successCount bulk.results parts ms.length)
                == 0) = true := by simp [hf]
            simp only [finaliseParent, hfb, if_true]
            constructor <;> trivial
          · intro hf hsucc
            simp only [] at hf hsucc
            have hfb : ((ms.length - successCount bulk.results parts ms.length)
                == 0) = false := by
              simp only [beq_eq_false_iff_ne]
              exact hf
            have hsb : ((successCount bulk.results parts ms.length) == 0) = true := by
              simp [hsucc]
            simp only [finaliseParent, hfb, hsb, Bool.false_eq_true, if_false, if_true]
            constructor <;> trivial
          · intro hf hsucc
            simp only [] at hf hsucc
            have hfb : ((ms.length - successCount bulk.results parts ms.length)
                == 0) = false := by
              simp only [beq_eq_false_iff_ne]
              exact hf
            have hsb : ((successCount bulk.results parts ms.length) == 0) = false := by
              simp only [beq_eq_false_iff_ne]
              exact hsucc
            simp only [finaliseParent, hfb, hsb, Bool.false_eq_true, if_false]
            constructor <;> trivial

/-- Witness for C5 at the concrete store. -/
theorem group_send_aggregation_witness :
    sResp.total = sResp.successful + sResp.failed
      ∧ sResp.successful = (sResp.children.filter
          (fun c => c.status == ScheduleStatus.sent)).length
      ∧ sResp.failed = (sResp.children.filter
          (fun c => c.status == ScheduleStatus.failed)).length
      ∧ (sResp.failed = 0
          → sResp.parent.status = ScheduleStatus.sent ∧ sResp.parent.error = none)
      ∧ (sResp.failed ≠ 0 → sResp.successful = 0
          → sResp.parent.status = ScheduleStatus.failed
            ∧ sResp.parent.error
                = some ("All " ++ toString sResp.failed ++ " messages failed"))
      ∧ (sResp.failed ≠ 0 → sResp.successful ≠ 0
          → sResp.parent.status = ScheduleStatus.sent
            ∧ sResp.parent.error = some (toString sResp.failed ++ " out of "
                ++ toString (sResp.successful + sResp.failed)
                ++ " messages failed")) :=
  group_send_aggregation sDB sOut.1 (some 1) 7 "Hi"
    { limit := none, current := 0, remaining := 0 } sBulk 9 500 sResp
    (by decide)

/-- Counterexample to C7: the bulk send does not return one result per
input recipient — a recipient whose phone fails validation is silently
dropped, so one input recipient can yield zero results. -/
theorem bulk_send_drops_invalid_phone :
    (mockSendBulkSms [{ to_phone := "123", message := "Hi" }]).results.length = 0
      ∧ [({ to_phone := "123", message := "Hi" } : BulkRecipient)].length = 1
      ∧ validatePhone "123" = false := by decide

/-- In a successful synchronous group send, the i-th child's terminal
status copies the i-th bulk result's success flag when that result exists,
and is `failed` when it does not. -/
theorem send_children_status (db db' : DB) (org? : Option Nat) (gid : Nat)
    (msg : String) (limitInfo : LimitInfo) (bulk : BulkResponse)
    (actor now : Nat) (resp : GroupSendResponse)
    (h : SMSViewSet.send_to_group db org? gid msg limitInfo bulk actor now
          = (db', Except.ok resp)) :
    (∀ j c r, resp.children.get? j = some c
        → bulk.results.get? j = some r
        → c.status = (if r.success then ScheduleStatus.sent
            else ScheduleStatus.failed))
      ∧ (∀ j c, resp.children.get? j = some c → bulk.results.get? j = none
          → c.status = ScheduleStatus.failed) := by
  unfold SMSViewSet.send_to_group at h
  split at h
  · simp [Prod.ext_iff] at h
  · split at h
    · simp [Prod.ext_iff] at h
    · dsimp only [] at h
      split at h
      · simp [Prod.ext_iff] at h
      · split at h
        · simp [Prod.ext_iff] at h
        · rw [Prod.mk.injEq] at h
          obtain ⟨hdb, hresp⟩ := h
          obtain rfl := Except.ok.inj hresp
          constructor
          · intro j c r hc hr
            dsimp only [] at hc
            rw [mkSendChildren_get?, Option.map_eq_some'] at hc
            obtain ⟨m, hm, hcm⟩ := hc
            rw [← hcm]
            rw [List.get?_eq_getElem?] at hr
            simp [mkSendChild, memberResult, hr]
          · intro j c hc hr
            dsimp only [] at hc
            rw [mkSendChildren_get?, Option.map_eq_some'] at hc
            obtain ⟨m, hm, hcm⟩ := hc
            rw [← hcm]
            rw [List.get?_eq_getElem?] at hr
            simp [mkSendChild, memberResult, hr]

/-- Claim C7 as amended: the bulk send returns exactly one result per
recipient whose phone passes validation, in input order (recipients with
invalid phones are dropped with no result); and in the synchronous group
send the i-th member's child takes its terminal status verbatim from the
i-th result's success flag whenever that result exists, and `failed` when
it does not. -/
theorem bulk_send_per_valid_recipient (recipients : List BulkRecipient)
    (db db' : DB) (org? : Option Nat) (gid : Nat) (msg : String)
    (limitInfo : LimitInfo) (bulk : BulkResponse) (actor now : Nat)
    (resp : GroupSendResponse)
    (h : SMSViewSet.send_to_group db org? gid msg limitInfo bulk actor now
          = (db', Except.ok resp)) :
    (mockSendBulkSms recipients).results.length
        = (recipients.filter (fun r => validatePhone r.to_phone)).length
      ∧ (∀ j r v, (mockSendBulkSms recipients).results.get? j = some r
          → (recipients.filter (fun r => validatePhone r.to_phone)).get? j = some v
          → r.to_phone = normalisePhone v.to_phone ∧ r.success = true)
      ∧ (∀ j c r, resp.children.get? j = some c
          → bulk.results.get? j = some r
          → c.status = (if r.success then ScheduleStatus.sent
              else ScheduleStatus.failed))
      ∧ (∀ j c, resp.children.get? j = some c → bulk.results.get? j = none
          → c.status = ScheduleStatus.failed) := by
  have hmock1 : (mockSendBulkSms recipients).results.length
      = (recipients.filter (fun r => validatePhone r.to_phone)).length := by
    simp [mockSendBulkSms, mockSendBulkImpl, normaliseRecipients]
  have hmock2 : ∀ j r v, (mockSendBulkSms recipients).results.get? j = some r
      → (recipients.filter (fun r => validatePhone r.to_phone)).get? j = some v
      → r.to_phone = normalisePhone v.to_phone ∧ r.success = true := by
    intro j r v hr hv
    simp only [mockSendBulkSms, mockSendBulkImpl, normaliseRecipients,
      List.get?_map, hv, Option.map_some'] at hr
    obtain rfl := (Option.some.inj hr).symm
    exact ⟨rfl, rfl⟩
  obtain ⟨h1, h2⟩ := send_children_status db db' org? gid msg limitInfo bulk
    actor now resp h
  exact ⟨hmock1, hmock2, h1, h2⟩

/-- Witness for the amended C7 at the concrete inputs. -/
theorem bulk_send_per_valid_recipient_witness :
    (mockSendBulkSms wRecipients).results.length
        = (wRecipients.filter (fun r => validatePhone r.to_phone)).length
      ∧ (∀ j r v, (mockSendBulkSms wRecipients).results.get? j = some r
          → (wRecipients.filter (fun r => validatePhone r.to_phone)).get? j = some v
          → r.to_phone = normalisePhone v.to_phone ∧ r.success = true)
      ∧ (∀ j c r, sResp.children.get? j = some c
          → sBulk.results.get? j = some r
          → c.status = (if r.success then ScheduleStatus.sent
              else ScheduleStatus.failed))
      ∧ (∀ j c, sResp.children.get? j = some c → sBulk.results.get? j = none
          → c.status = ScheduleStatus.failed) :=
  bulk_send_per_valid_recipient wRecipients sDB sOut.1 (some 1) 7 "Hi"
    { limit := none, current := 0, remaining := 0 } sBulk 9 500 sResp
    (by decide)
